import Mathlib

/-!
Verification of the study-session bot (`src/bot.py`).

This file gives a shallow embedding of the bot's session-lifecycle engine:
the per-community in-memory state (active sessions, presence ledger,
enforced-user set, focus-mode flag, pomodoro state), the durable store
(`StudyStore`), the mute-enforcement loop (modelled one `while`-iteration
at a time), the focus-mode controller, and the pomodoro scheduler.

Modelling conventions:
* Instants are integer seconds since the Unix epoch; the spec itself fixes
  second granularity as sufficient.  An aware Python `datetime` is a pair
  of the absolute instant and a display offset (`DateTime` below);
  `datetime.now(timezone.utc)` is the pair `(clock, 0)`.
* Python dicts keyed by ids become association lists `List (Nat × α)`;
  `dict.pop(k, None)` becomes `apop`, `d[k] = v` becomes `aset`.
* SQLite tables become lists of row structures; `INSERT .. ON CONFLICT DO
  UPDATE` becomes `upsertRow`.
* The chat platform is a `Guild` value: channels with member lists, plus
  the set of member ids the bot is *not* permitted to edit
  (`discord.Forbidden` is raised exactly for those).
* `asyncio` cooperative scheduling: every piece of code between two
  `await`-suspension points runs atomically, so each such segment is a
  pure state transition.  Cancellation and unexpected exceptions are
  injected faults (`Exn`) delivered at suspension points.
-/

/-- Association-list lookup, modelling `d.get(k)` / `k in d` on a Python
dict keyed by integer ids. -/
def alookup {α : Type} : List (Nat × α) → Nat → Option α
  | [], _ => none
  | p :: rest, k => if p.1 = k then some p.2 else alookup rest k

/-- Association-list update, modelling `d[k] = v`: replaces the value in
place if the key is present, appends the binding otherwise. -/
def aset {α : Type} : List (Nat × α) → Nat → α → List (Nat × α)
  | [], k, v => [(k, v)]
  | p :: rest, k, v => if p.1 = k then (k, v) :: rest else p :: aset rest k v

/-- Removal of every binding of a key, the mutation part of `d.pop(k)`. -/
def aerase {α : Type} : List (Nat × α) → Nat → List (Nat × α)
  | [], _ => []
  | p :: rest, k => if p.1 = k then aerase rest k else p :: aerase rest k

/-- Modelling `d.pop(k, None)`: returns the removed value (if any) and the
remaining dict; when the key is absent the dict is untouched. -/
def apop {α : Type} (l : List (Nat × α)) (k : Nat) : Option α × List (Nat × α) :=
  match alookup l k with
  | none => (none, l)
  | some v => (some v, aerase l k)

/-- Modelling `d.setdefault(k, v)`. -/
def asetdefault {α : Type} (l : List (Nat × α)) (k : Nat) (v : α) : List (Nat × α) :=
  match alookup l k with
  | none => l ++ [(k, v)]
  | some _ => l

/-- Modelling `s.add(x)` on a Python set represented as a duplicate-free list. -/
def insertIfAbsent (l : List Nat) (x : Nat) : List Nat :=
  if x ∈ l then l else l ++ [x]

theorem alookup_aset_self {α : Type} (l : List (Nat × α)) (k : Nat) (v : α) :
    alookup (aset l k v) k = some v := by
  induction l with
  | nil => simp [aset, alookup]
  | cons p rest ih =>
    by_cases h : p.1 = k <;> simp [aset, alookup, h, ih]

theorem alookup_aset_ne {α : Type} (l : List (Nat × α)) (k k' : Nat) (v : α)
    (h : k' ≠ k) : alookup (aset l k v) k' = alookup l k' := by
  have hk : k ≠ k' := Ne.symm h
  induction l with
  | nil => simp [aset, alookup, hk]
  | cons p rest ih =>
    by_cases hp : p.1 = k
    · simp [aset, alookup, hp, hk]
    · simp only [aset, hp, if_false, alookup]
      by_cases hp' : p.1 = k' <;> simp [hp', ih]

theorem alookup_aerase_self {α : Type} (l : List (Nat × α)) (k : Nat) :
    alookup (aerase l k) k = none := by
  induction l with
  | nil => simp [aerase, alookup]
  | cons p rest ih =>
    by_cases h : p.1 = k <;> simp [aerase, alookup, h, ih]

theorem alookup_aerase_ne {α : Type} (l : List (Nat × α)) (k k' : Nat)
    (h : k' ≠ k) : alookup (aerase l k) k' = alookup l k' := by
  induction l with
  | nil => simp [aerase]
  | cons p rest ih =>
    by_cases hp : p.1 = k
    · simp [aerase, alookup, hp, ih, Ne.symm h]
    · simp only [aerase, hp, if_false, alookup]
      by_cases hp' : p.1 = k' <;> simp [hp', ih]

theorem apop_of_absent {α : Type} (l : List (Nat × α)) (k : Nat)
    (h : alookup l k = none) : apop l k = (none, l) := by
  simp [apop, h]

theorem apop_of_present {α : Type} (l : List (Nat × α)) (k : Nat) (v : α)
    (h : alookup l k = some v) : apop l k = (some v, aerase l k) := by
  simp [apop, h]

/-! ## Instants

An aware Python `datetime`: the absolute instant in seconds since the Unix
epoch together with the attached `tzinfo` utcoffset in seconds.  All
arithmetic the bot performs (`-` between datetimes, `.total_seconds()`)
depends only on `epoch`; wall-clock readings (`.date()`, `.weekday()`)
depend on `epoch + tzOffset`. -/
structure DateTime where
  epoch : Int
  tzOffset : Int
  deriving DecidableEq

/-- Modelling `dt.astimezone(timezone.utc)`: same instant, zero offset. -/
def astimezoneUtc (dt : DateTime) : DateTime :=
  { epoch := dt.epoch, tzOffset := 0 }

/-- Modelling `datetime.now(timezone.utc)` when the event loop's clock
reads `t`. -/
def utcNow (t : Int) : DateTime :=
  { epoch := t, tzOffset := 0 }

/-- Wall-clock seconds of the datetime (what `.date()`/`.weekday()` see). -/
def DateTime.wallSeconds (dt : DateTime) : Int :=
  dt.epoch + dt.tzOffset

/-- Modelling `.date()`: the wall-clock day as a count of days since
1970-01-01 (Python `date` objects are in bijection with these counts, and
`isoformat` keys in the store are in bijection with dates). -/
def DateTime.toDate (dt : DateTime) : Int :=
  dt.wallSeconds / 86400

/-- Modelling `.weekday()`: Monday = 0 .. Sunday = 6.  1970-01-01 (day 0)
was a Thursday, hence the `+ 3`. -/
def DateTime.weekday (dt : DateTime) : Int :=
  (dt.toDate + 3) % 7

/-- Modelling `dt - timedelta(days=n)`. -/
def DateTime.subDays (dt : DateTime) (n : Int) : DateTime :=
  { dt with epoch := dt.epoch - n * 86400 }

/-- Source `week_start_utc` (bot.py lines 21-23):
`dt_utc = dt.astimezone(timezone.utc)` then
`(dt_utc - timedelta(days=dt_utc.weekday())).date()`.
The result is the week bucket key, as a day count since the epoch. -/
def week_start_utc (dt : DateTime) : Int :=
  let dt_utc := astimezoneUtc dt
  (dt_utc.subDays dt_utc.weekday).toDate

/-! ## Durable store (`StudyStore`, bot.py lines 55-230)

SQLite tables become lists of rows; the `INSERT .. ON CONFLICT DO UPDATE`
statements become `upsertRow` below.  Row order in the lists is the
insertion order of the table. -/

/-- Row of `study_time` (all-time totals, primary key `(guild_id, user_id)`). -/
structure StudyRow where
  guild_id : Nat
  user_id : Nat
  total_seconds : Int
  deriving DecidableEq

/-- Row of `weekly_study_time` (primary key `(guild_id, user_id, week_start)`).
`week_start` is the bucket date as a day count (see `DateTime.toDate`). -/
structure WeeklyRow where
  guild_id : Nat
  user_id : Nat
  week_start : Int
  total_seconds : Int
  deriving DecidableEq

/-- Row of `session_history`. -/
structure SessionRow where
  id : Nat
  guild_id : Nat
  voice_channel_id : Nat
  started_at : Int
  ended_at : Option Int
  duration_seconds : Option Int
  deriving DecidableEq

/-- Row of `guild_config`. -/
structure ConfigRow where
  guild_id : Nat
  study_voice_channel_id : Nat
  study_category_id : Nat
  deriving DecidableEq

/-- The whole SQLite database.  `next_session_id` models the
`AUTOINCREMENT` counter of `session_history`. -/
structure StudyStore where
  study_time : List StudyRow
  weekly_study_time : List WeeklyRow
  session_history : List SessionRow
  guild_config : List ConfigRow
  next_session_id : Nat
  deriving DecidableEq

/-- Generic `INSERT .. ON CONFLICT DO UPDATE`: update the row matching the
conflict predicate `p` in place with `bump` (the primary key guarantees at
most one), or append the fresh row `mk` when none matches. -/
def upsertRow {β : Type} (p : β → Bool) (bump : β → β) (mk : β) : List β → List β
  | [] => [mk]
  | r :: rs => if p r then bump r :: rs else r :: upsertRow p bump mk rs

/-- Generic single-cell `SELECT total_seconds .. WHERE key` with SQL's
`0 if absent` convention used by the bot's readers. -/
def lookupTotal {β : Type} (p : β → Bool) (total : β → Int) (rows : List β) : Int :=
  match rows.find? p with
  | some r => total r
  | none => 0

/-- Conflict predicate of the `study_time` upsert. -/
def studyKey (g u : Nat) (r : StudyRow) : Bool :=
  r.guild_id == g && r.user_id == u

/-- Conflict predicate of the `weekly_study_time` upsert. -/
def weeklyKey (g u : Nat) (w : Int) (r : WeeklyRow) : Bool :=
  r.guild_id == g && r.user_id == u && r.week_start == w

/-- Source `StudyStore.add_study_seconds` (bot.py lines 159-182): no-op for
`seconds <= 0`, otherwise accumulate into both the all-time and the
current-ISO-week rows, the week key being `week_start_utc(at_time)`. -/
def add_study_seconds (store : StudyStore) (guild_id user_id : Nat)
    (seconds : Int) (at_time : DateTime) : StudyStore :=
  if seconds ≤ 0 then store
  else
    let start_of_week := week_start_utc at_time
    { store with
      study_time :=
        upsertRow (studyKey guild_id user_id)
          (fun r => { r with total_seconds := r.total_seconds + seconds })
          { guild_id := guild_id, user_id := user_id, total_seconds := seconds }
          store.study_time,
      weekly_study_time :=
        upsertRow (weeklyKey guild_id user_id start_of_week)
          (fun r => { r with total_seconds := r.total_seconds + seconds })
          { guild_id := guild_id, user_id := user_id,
            week_start := start_of_week, total_seconds := seconds }
          store.weekly_study_time }

/-- Source `StudyStore.get_user_seconds` (bot.py lines 223-230). -/
def get_user_seconds (store : StudyStore) (g u : Nat) : Int :=
  lookupTotal (studyKey g u) (fun r => r.total_seconds) store.study_time

/-- Observer of one weekly bucket cell, the single-row form of the
`SELECT .. FROM weekly_study_time WHERE guild_id = ? AND week_start = ?`
query used by `get_weekly_top_users` (bot.py lines 199-212). -/
def weekly_user_seconds (store : StudyStore) (g u : Nat) (w : Int) : Int :=
  lookupTotal (weeklyKey g u w) (fun r => r.total_seconds) store.weekly_study_time

/-- Source `StudyStore.reset_weekly_data` (bot.py lines 214-221): a SQL
`DELETE` of one guild's one-week bucket; returns `cursor.rowcount`, the
number of rows removed, together with the new store. -/
def reset_weekly_data (store : StudyStore) (g : Nat) (w : Int) : Nat × StudyStore :=
  let removed := store.weekly_study_time.filter
    (fun r => r.guild_id == g && r.week_start == w)
  (removed.length,
   { store with
     weekly_study_time :=
       store.weekly_study_time.filter
         (fun r => !(r.guild_id == g && r.week_start == w)) })

/-- Source `StudyStore.create_session_record` (bot.py lines 135-145):
inserts an open history row and returns its autoincrement id. -/
def create_session_record (store : StudyStore) (g vc : Nat) (started_at : Int) :
    Nat × StudyStore :=
  let sid := store.next_session_id
  (sid,
   { store with
     session_history := store.session_history ++
       [{ id := sid, guild_id := g, voice_channel_id := vc,
          started_at := started_at, ended_at := none, duration_seconds := none }],
     next_session_id := sid + 1 })

/-- Source `StudyStore.close_session_record` (bot.py lines 147-157): SQL
`UPDATE session_history SET ended_at, duration_seconds WHERE id`. -/
def close_session_record (store : StudyStore) (sid : Nat) (ended_at : Int)
    (duration_seconds : Int) : StudyStore :=
  { store with
    session_history := store.session_history.map
      (fun r => if r.id == sid then
          { r with ended_at := some ended_at,
                   duration_seconds := some duration_seconds }
        else r) }

/-- Source `StudyStore.upsert_guild_config` (bot.py lines 105-122). -/
def upsert_guild_config (store : StudyStore) (g vc cat : Nat) : StudyStore :=
  { store with
    guild_config :=
      upsertRow (fun r => r.guild_id == g)
        (fun r => { r with study_voice_channel_id := vc, study_category_id := cat })
        { guild_id := g, study_voice_channel_id := vc, study_category_id := cat }
        store.guild_config }

/-- Source `StudyStore.get_guild_config` (bot.py lines 124-133). -/
def get_guild_config (store : StudyStore) (g : Nat) : Option Nat × Option Nat :=
  match store.guild_config.find? (fun r => r.guild_id == g) with
  | some r => (some r.study_voice_channel_id, some r.study_category_id)
  | none => (none, none)

/-! ## Chat platform (external collaborator)

A guild with its channels and members, consumed through the capability
interface the bot uses: enumerate present non-bot members, read and set a
member's server-mute flag, resolve channels.  `member.edit` raises
`discord.Forbidden` exactly for ids listed in `forbidden`. -/

/-- Channel kinds the bot distinguishes with `isinstance` checks. -/
inductive ChanKind where
  | voice
  | category
  | text
  | other
  deriving DecidableEq

/-- A member as seen in a voice channel's member list.  `inVoice` models
`member.voice is not None`, `mute` the server-mute flag `member.voice.mute`. -/
structure Member where
  id : Nat
  bot : Bool
  inVoice : Bool
  mute : Bool
  deriving DecidableEq

/-- A guild channel.  `parent` is the owning category, if any. -/
structure Channel where
  id : Nat
  kind : ChanKind
  name : String
  parent : Option Nat
  members : List Member
  deriving DecidableEq

/-- The guild object.  `forbidden` is the set of member ids whose
`member.edit` calls the platform rejects with `discord.Forbidden`;
`next_channel_id` supplies ids for freshly created channels. -/
structure Guild where
  id : Nat
  channels : List Channel
  forbidden : List Nat
  next_channel_id : Nat
  deriving DecidableEq

/-- Modelling `guild.get_channel(cid)`. -/
def get_channel (g : Guild) (cid : Nat) : Option Channel :=
  g.channels.find? (fun c => c.id == cid)

/-- Modelling `await member.edit(mute=b)`: `none` is `discord.Forbidden`;
on success the member's server-mute flag is updated everywhere it is
visible. -/
def editMute (g : Guild) (uid : Nat) (b : Bool) : Option Guild :=
  if uid ∈ g.forbidden then none
  else
    let setOne : Member → Member :=
      fun m => if m.id = uid then { m with mute := b } else m
    some { g with
           channels := g.channels.map
             (fun c => { c with members := c.members.map setOne }) }

/-- Member list of a channel id (empty when the channel is gone). -/
def channelMembers (g : Guild) (cid : Nat) : List Member :=
  match get_channel g cid with
  | some c => c.members
  | none => []

/-! ## In-memory bot state (`StudyBot.__init__`, bot.py lines 241-247) -/

/-- Source `ActiveSession` dataclass (bot.py lines 26-31).  The task handle
is an abstract task id. -/
structure ActiveSession where
  guild_id : Nat
  voice_channel_id : Nat
  started_at : Int
  enforce_mute_task : Option Nat := none
  deriving DecidableEq

/-- Source `PomodoroState` dataclass (bot.py lines 34-40). -/
structure PomodoroState where
  task : Nat
  text_channel_id : Nat
  work_minutes : Nat
  break_minutes : Nat
  cycles : Nat
  deriving DecidableEq

/-- The bot's per-community mutable maps (bot.py lines 241-247) together
with the durable store.  `next_task_id` numbers `asyncio.create_task`
handles; `cancelled_tasks` records `task.cancel()` calls. -/
structure BotState where
  store : StudyStore
  active_sessions : List (Nat × ActiveSession)
  active_session_record_id : List (Nat × Nat)
  enforced_user_ids : List (Nat × List Nat)
  session_joined_at : List (Nat × List (Nat × Int))
  focus_mode_active : List (Nat × Bool)
  pomodoro_states : List (Nat × PomodoroState)
  next_task_id : Nat
  cancelled_tasks : List Nat
  deriving DecidableEq

/-- One snapshot of the world the event loop acts on: bot state, the guild
object, and the loop's clock (epoch seconds). -/
structure Sim where
  bot : BotState
  guild : Guild
  clock : Int
  deriving DecidableEq

/-- Presence-ledger entry of one user, reading through both dict levels. -/
def ledgerLookup (st : BotState) (gid uid : Nat) : Option Int :=
  match alookup st.session_joined_at gid with
  | some ledger => alookup ledger uid
  | none => none

/-- Keys snapshot `list(bot.session_joined_at.get(gid, {}).keys())`. -/
def ledgerKeys (st : BotState) (gid : Nat) : List Nat :=
  match alookup st.session_joined_at gid with
  | some ledger => ledger.map (fun p => p.1)
  | none => []

/-- Source `accrue_user_time` (bot.py lines 293-298): pop the user's join
instant from the presence ledger (no-op when absent, including when the
guild has no ledger at all) and, when an instant was present, persist the
elapsed whole seconds through `add_study_seconds` (which itself drops
amounts `<= 0`). -/
def accrue_user_time (gid uid : Nat) (now : Int) (st : BotState) : BotState :=
  match alookup st.session_joined_at gid with
  | none => st
  | some ledger =>
    match apop ledger uid with
    | (none, _) => st
    | (some joined_at, ledger') =>
      let st1 := { st with session_joined_at := aset st.session_joined_at gid ledger' }
      let elapsed := now - joined_at
      { st1 with store := add_study_seconds st1.store gid uid elapsed (utcNow now) }

/-! ## Mute Enforcement Loop (`enforce_channel_mute`, bot.py lines 301-328)

The loop body between two sleeps is one pure transition (`enforceTick`).
`Exn` is the exception taxonomy relevant to the loop: `forbidden` is
`discord.Forbidden` (a subclass of `Exception`), `cancelled` is
`asyncio.CancelledError` (a `BaseException`, NOT caught by
`except Exception`), `other` is any other `Exception`. -/

/-- Exceptions deliverable at an await point inside the loop's `try`. -/
inductive Exn where
  | forbidden
  | cancelled
  | other
  deriving DecidableEq

/-- Result of the `for member in channel.members` mute pass inside one
iteration: the member ids on which `member.edit(mute=True)` was attempted
(in order), the platform and bot state after the pass, and whether the
pass was cut short by `discord.Forbidden`. -/
structure MutePassOut where
  attempted : List Nat
  guild : Guild
  st : BotState
  failed : Bool
  deriving DecidableEq

/-- Helper for `bot.enforced_user_ids[gid].add(uid)`. -/
def addEnforced (st : BotState) (gid uid : Nat) : BotState :=
  let cur := (alookup st.enforced_user_ids gid).getD []
  { st with enforced_user_ids := aset st.enforced_user_ids gid (insertIfAbsent cur uid) }

/-- The `for member in channel.members` body of `enforce_channel_mute`
(bot.py lines 318-323).  Skips bots, members with no voice state, and
already-muted members; otherwise attempts `member.edit(mute=True)` and on
success records the id in the enforced set.  `discord.Forbidden` escapes
the `for` loop (the `except` clauses sit outside it), so the pass stops at
the first failing member. -/
def mutePass (gid : Nat) : List Member → Guild → BotState → MutePassOut
  | [], g, st => { attempted := [], guild := g, st := st, failed := false }
  | m :: rest, g, st =>
    if m.bot || !m.inVoice then mutePass gid rest g st
    else if m.mute then mutePass gid rest g st
    else
      match editMute g m.id true with
      | none => { attempted := [m.id], guild := g, st := st, failed := true }
      | some g' =>
        let out := mutePass gid rest g' (addEnforced st gid m.id)
        { out with attempted := m.id :: out.attempted }

/-- Outcome of one iteration of the `while guild.id in bot.active_sessions`
loop.  `exit` is the guard failing (loop ends normally), `cancelled` is
`asyncio.CancelledError` propagating out (it is not an `Exception`),
`next n a st g` is "sleep `n` seconds, then run the next iteration from
state `(st, g)`"; `a` lists the member ids muted-or-attempted this tick. -/
inductive TickResult where
  | exit
  | cancelled
  | next (sleepSecs : Nat) (attempted : List Nat) (st : BotState) (g : Guild)
  deriving DecidableEq

/-- One iteration of `enforce_channel_mute`'s `while` loop (bot.py lines
312-328) for the session bound to guild `sid` and channel `chanId`.
`fault`, when present, is an exception raised inside the `try` body by the
platform or runtime this iteration; `except discord.Forbidden` and
`except Exception` both absorb it and sleep 10, while `CancelledError`
(not an `Exception`) terminates the task. -/
def enforceTick (sid chanId : Nat) (fault : Option Exn) (st : BotState) (g : Guild) :
    TickResult :=
  if (alookup st.active_sessions sid).isNone then TickResult.exit
  else
    match fault with
    | some Exn.cancelled => TickResult.cancelled
    | some _ => TickResult.next 10 [] st g
    | none =>
      if !((alookup st.focus_mode_active sid).getD true) then TickResult.next 5 [] st g
      else
        let out := mutePass sid (channelMembers g chanId) g st
        TickResult.next 10 out.attempted out.st out.guild

/-- The per-tick attempted-mute list, for observing `enforceTick`. -/
def tickAttempted : TickResult → List Nat
  | TickResult.next _ a _ _ => a
  | _ => []

/-! ## Focus Mode Controller (`set_focus_mode`, bot.py lines 331-367) -/

/-- Ledger seeding `{member.id: now for member in channel.members if not
member.bot}` (bot.py lines 344-346). -/
def seedLedger (members : List Member) (now : Int) : List (Nat × Int) :=
  (members.filter (fun m => !m.bot)).map (fun m => (m.id, now))

/-- The enabling mute loop of `set_focus_mode` (bot.py lines 347-354):
per-member `try .. except discord.Forbidden: pass`, so one failure never
stops the pass. -/
def focusMuteLoop (gid : Nat) : List Member → Guild → BotState → Guild × BotState
  | [], g, st => (g, st)
  | m :: rest, g, st =>
    if m.bot || !m.inVoice || m.mute then focusMuteLoop gid rest g st
    else
      match editMute g m.id true with
      | none => focusMuteLoop gid rest g st
      | some g' => focusMuteLoop gid rest g' (addEnforced st gid m.id)

/-- The unmute loop shared (textually duplicated in the source) by
`set_focus_mode`'s disabling branch (bot.py lines 360-367) and
`stop_session` (bot.py lines 403-410): unmute every non-bot member the
engine itself muted who is still muted, swallowing `discord.Forbidden`
per member. -/
def unmuteEnforced (gid : Nat) : List Member → Guild → BotState → Guild
  | [], g, _ => g
  | m :: rest, g, st =>
    if m.bot then unmuteEnforced gid rest g st
    else if m.id ∈ (alookup st.enforced_user_ids gid).getD [] && m.inVoice && m.mute then
      match editMute g m.id false with
      | none => unmuteEnforced gid rest g st
      | some g' => unmuteEnforced gid rest g' st
    else unmuteEnforced gid rest g st

/-- The `for user_id in list(...keys()): await accrue_user_time(...)`
pattern (bot.py lines 357-358 and 398-399). -/
def accrueAll (gid : Nat) (now : Int) : List Nat → BotState → BotState
  | [], st => st
  | u :: rest, st => accrueAll gid now rest (accrue_user_time gid u now st)

/-- Source `set_focus_mode` (bot.py lines 331-367).  No-op without an
active session or a resolvable voice channel; otherwise sets the flag and
either (enabling) reseeds the ledger and best-effort mutes everyone
present, or (disabling) accrues every ledger entry and best-effort
unmutes the engine-muted members. -/
def set_focus_mode (enabled : Bool) (s : Sim) : Sim :=
  match alookup s.bot.active_sessions s.guild.id with
  | none => s
  | some sess =>
    match get_channel s.guild sess.voice_channel_id with
    | none => s
    | some channel =>
      if channel.kind ≠ ChanKind.voice then s
      else
        let gid := s.guild.id
        let now := s.clock
        let st0 := { s.bot with focus_mode_active := aset s.bot.focus_mode_active gid enabled }
        if enabled then
          let st1 := { st0 with session_joined_at := aset st0.session_joined_at gid (seedLedger channel.members now) }
          let (g', st2) := focusMuteLoop gid channel.members s.guild st1
          { s with bot := st2, guild := g' }
        else
          let st1 := accrueAll gid now (ledgerKeys st0 gid) st0
          let g' := unmuteEnforced gid channel.members s.guild st1
          { s with bot := st1, guild := g' }

/-! ## Session Registry (`ensure_study_channel`, `start_session`,
`stop_session`, bot.py lines 266-424) -/

/-- Category name constant (bot.py line 17). -/
def DEFAULT_CATEGORY_NAME : String := "Study Sessions"

/-- Voice channel name constant (bot.py line 18). -/
def DEFAULT_VOICE_NAME : String := "Focused Study Room"

/-- Modelling `guild.create_category(name)`. -/
def create_category (g : Guild) (name : String) : Channel × Guild :=
  let c : Channel :=
    { id := g.next_channel_id, kind := ChanKind.category, name := name,
      parent := none, members := [] }
  (c, { g with channels := g.channels ++ [c], next_channel_id := g.next_channel_id + 1 })

/-- Modelling `guild.create_voice_channel(name, category=cat, ...)`; the
permission overwrites passed in the source are platform configuration
outside this model. -/
def create_voice_channel (g : Guild) (name : String) (cat : Nat) : Channel × Guild :=
  let c : Channel :=
    { id := g.next_channel_id, kind := ChanKind.voice, name := name,
      parent := some cat, members := [] }
  (c, { g with channels := g.channels ++ [c], next_channel_id := g.next_channel_id + 1 })

/-- The category fallback of `ensure_study_channel` (bot.py lines 274-277):
`discord.utils.get(guild.categories, name=DEFAULT_CATEGORY_NAME)`, created
if missing. -/
def findOrCreateCategory (g : Guild) : Channel × Guild :=
  match g.channels.find?
      (fun c => decide (c.kind = ChanKind.category ∧ c.name = DEFAULT_CATEGORY_NAME)) with
  | some c => (c, g)
  | none => create_category g DEFAULT_CATEGORY_NAME

/-- The provisioning tail of `ensure_study_channel` (bot.py lines 273-290),
reached when the configured channel does not resolve to a voice channel. -/
def ensureCreate (s : Sim) (category_id : Option Nat) : Channel × Sim :=
  let cat0 := category_id.bind (fun cid => get_channel s.guild cid)
  let catPick : Channel × Guild :=
    match cat0 with
    | some c =>
      if c.kind = ChanKind.category then (c, s.guild) else findOrCreateCategory s.guild
    | none => findOrCreateCategory s.guild
  let (vc, g2) := create_voice_channel catPick.2 DEFAULT_VOICE_NAME catPick.1.id
  let store1 := upsert_guild_config s.bot.store s.guild.id vc.id catPick.1.id
  (vc, { s with guild := g2, bot := { s.bot with store := store1 } })

/-- Source `ensure_study_channel` (bot.py lines 266-290). -/
def ensure_study_channel (s : Sim) : Channel × Sim :=
  let cfg := get_guild_config s.bot.store s.guild.id
  let channel := cfg.1.bind (fun cid => get_channel s.guild cid)
  match channel with
  | some c => if c.kind = ChanKind.voice then (c, s) else ensureCreate s cfg.2
  | none => ensureCreate s cfg.2

/-- The expression `channel if isinstance(channel, discord.VoiceChannel)
else None` over `guild.get_channel` (bot.py lines 372-373). -/
def resolveVoiceChannel (g : Guild) (cid : Nat) : Option Channel :=
  match get_channel g cid with
  | some c => if c.kind = ChanKind.voice then some c else none
  | none => none

/-- Source `start_session` (bot.py lines 370-387).  With a session already
active it returns `started = False` plus the existing session's channel
(resolved through `guild.get_channel`, `None` unless a voice channel) and
touches nothing.  Otherwise it provisions the channel, registers the
session, enables focus mode, seeds the ledger with the present non-bot
members, persists the open history record and launches the enforcement
task. -/
def start_session (s : Sim) : (Bool × Option Channel) × Sim :=
  match alookup s.bot.active_sessions s.guild.id with
  | some sess =>
    ((false, resolveVoiceChannel s.guild sess.voice_channel_id), s)
  | none =>
    let (channel, s1) := ensure_study_channel s
    let started_at := s1.clock
    let gid := s1.guild.id
    let sess : ActiveSession :=
      { guild_id := gid, voice_channel_id := channel.id,
        started_at := started_at, enforce_mute_task := none }
    let st1 :=
      { s1.bot with
        active_sessions := aset s1.bot.active_sessions gid sess,
        focus_mode_active := aset s1.bot.focus_mode_active gid true,
        session_joined_at := aset s1.bot.session_joined_at gid (seedLedger channel.members started_at) }
    let rec0 := create_session_record st1.store gid channel.id started_at
    let st2 :=
      { st1 with
        store := rec0.2,
        active_session_record_id := aset st1.active_session_record_id gid rec0.1 }
    let tid := st2.next_task_id
    let st3 :=
      { st2 with
        next_task_id := tid + 1,
        active_sessions := aset st2.active_sessions gid { sess with enforce_mute_task := some tid } }
    ((true, some channel), { s1 with bot := st3 })

/-- The first atomic step of `stop_session` (bot.py line 391):
`session = bot.active_sessions.pop(guild.id, None)`.  It runs before the
function's first `await`, so no other task can interleave before the
registry entry is gone. -/
def stop_phase1 (s : Sim) : Option ActiveSession × Sim :=
  let popped := apop s.bot.active_sessions s.guild.id
  (popped.1, { s with bot := { s.bot with active_sessions := popped.2 } })

/-- The remainder of `stop_session` (bot.py lines 395-424), entered only
when `stop_phase1` found a session: compute the duration, accrue every
ledger entry, best-effort unmute the enforced members, drop the enforced
set, ledger and focus flag, cancel the enforcement task, pop the open
history record id and close the record. -/
def stop_rest (reason : String) (sess : ActiveSession) (s : Sim) : Int × Sim :=
  let gid := s.guild.id
  let ended_at := s.clock
  let duration_seconds := ended_at - sess.started_at
  let st1 := accrueAll gid ended_at (ledgerKeys s.bot gid) s.bot
  let g1 :=
    match get_channel s.guild sess.voice_channel_id with
    | some channel =>
      if channel.kind = ChanKind.voice then unmuteEnforced gid channel.members s.guild st1
      else s.guild
    | none => s.guild
  let st2 :=
    { st1 with
      enforced_user_ids := (apop st1.enforced_user_ids gid).2,
      session_joined_at := (apop st1.session_joined_at gid).2,
      focus_mode_active := (apop st1.focus_mode_active gid).2 }
  let st3 :=
    match sess.enforce_mute_task with
    | some tid => { st2 with cancelled_tasks := st2.cancelled_tasks ++ [tid] }
    | none => st2
  let popped := apop st3.active_session_record_id gid
  let st4 := { st3 with active_session_record_id := popped.2 }
  let st5 :=
    match popped.1 with
    | some rid => { st4 with store := close_session_record st4.store rid ended_at duration_seconds }
    | none => st4
  (duration_seconds, { s with bot := st5, guild := g1 })

/-- Source `stop_session` (bot.py lines 390-424). -/
def stop_session (reason : String) (s : Sim) : Option Int × Sim :=
  match stop_phase1 s with
  | (none, s1) => (none, s1)
  | (some sess, s1) =>
    let r := stop_rest reason sess s1
    (some r.1, r.2)

/-! ## Pomodoro Scheduler (`run_pomodoro_cycles`, `pomodoro_start`,
bot.py lines 427-468 and 582-625) -/

/-- The messages `run_pomodoro_cycles` sends to its text channel, as
structured data: `focus c n w` is the f-string of bot.py line 442
("Pomodoro cycle c/n: focus for w minutes"), `brk b` line 451
("Break time: b minutes"), `completed d` line 458 ("Pomodoro finished
... ended after d") and `stopped d` line 464 ("Pomodoro stopped ...
ended after d"). -/
inductive Msg where
  | focus (cycle cycles work_minutes : Nat)
  | brk (break_minutes : Nat)
  | completed (duration : Int)
  | stopped (duration : Int)
  deriving DecidableEq

/-- Result of the `for cycle in range(1, cycles + 1)` loop: the messages
sent so far, the state on leaving the loop, the next suspension-point
index, and the exception (if any) that aborted the loop. -/
structure PomoLoopOut where
  msgs : List Msg
  sim : Sim
  sleepIdx : Nat
  exn : Option Exn
  deriving DecidableEq

/-- Modelling `await asyncio.sleep(dur)` as suspension point number `idx`:
if the injected fault targets this suspension point the corresponding
exception is raised there (clock untouched), otherwise the event loop's
clock advances by `dur` seconds. -/
def doSleep (fault : Option (Nat × Exn)) (idx : Nat) (dur : Nat) (s : Sim) :
    Option Exn × Sim :=
  match fault with
  | some f => if f.1 = idx then (some f.2, s) else (none, { s with clock := s.clock + dur })
  | none => (none, { s with clock := s.clock + dur })

/-- The `for cycle in range(1, cycles + 1)` loop of `run_pomodoro_cycles`
(bot.py lines 439-453).  The first argument is the number of loop
iterations left (the caller passes `cycles`, matching `cycle` starting at
1); each iteration enables focus mode, announces the focus phase, sleeps
the work phase, breaks out when `cycle == cycles`, otherwise disables
focus mode, announces the break and sleeps the break phase. -/
def pomoLoop (work brk cycles : Nat) (fault : Option (Nat × Exn)) :
    Nat → Nat → Nat → Sim → PomoLoopOut
  | 0, _, sleepIdx, s => { msgs := [], sim := s, sleepIdx := sleepIdx, exn := none }
  | iters + 1, cycle, sleepIdx, s =>
    let s1 := set_focus_mode true s
    let m1 := Msg.focus cycle cycles work
    match doSleep fault sleepIdx (work * 60) s1 with
    | (some e, s2) => { msgs := [m1], sim := s2, sleepIdx := sleepIdx + 1, exn := some e }
    | (none, s2) =>
      if cycle = cycles then
        { msgs := [m1], sim := s2, sleepIdx := sleepIdx + 1, exn := none }
      else
        let s3 := set_focus_mode false s2
        let m2 := Msg.brk brk
        match doSleep fault (sleepIdx + 1) (brk * 60) s3 with
        | (some e, s4) =>
          { msgs := [m1, m2], sim := s4, sleepIdx := sleepIdx + 2, exn := some e }
        | (none, s4) =>
          let out := pomoLoop work brk cycles fault iters (cycle + 1) (sleepIdx + 2) s4
          { out with msgs := m1 :: m2 :: out.msgs }

/-- The `finally: bot.pomodoro_states.pop(guild.id, None)` of bot.py
line 468. -/
def popPomoState (s : Sim) : Sim :=
  { s with bot := { s.bot with pomodoro_states := (apop s.bot.pomodoro_states s.guild.id).2 } }

/-- How a `run_pomodoro_cycles` task ends: a plain return, a propagating
`asyncio.CancelledError` (re-raised at bot.py line 466), or a propagating
unexpected exception. -/
inductive RunExit where
  | normal
  | cancelled
  | errored
  deriving DecidableEq

/-- Modelling `isinstance(ch, discord.abc.Messageable)`: text channels and
(since discord.py 2.0) voice channels can be sent messages. -/
def isMessageable (c : Channel) : Bool :=
  c.kind == ChanKind.text || c.kind == ChanKind.voice

/-- Whether `guild.get_channel(cid)` yields a messageable channel. -/
def channelMessageable (g : Guild) (cid : Nat) : Bool :=
  match get_channel g cid with
  | some c => isMessageable c
  | none => false

/-- Source `run_pomodoro_cycles` (bot.py lines 427-468).  Note the early
`return` of lines 434-436: when the announcement channel does not resolve
to a messageable channel the coroutine returns BEFORE entering the
`try`/`finally`, so the Pomodoro State entry is not popped on that path.
On the paths through the `try` block: normal completion stops the session
with reason "Pomodoro completed" and announces the duration; cancellation
stops it with reason "Pomodoro stopped", announces, and re-raises; any
other exception propagates; the `finally` pops the Pomodoro State entry
in all three cases. -/
def run_pomodoro_cycles (text_channel_id work brk cycles : Nat)
    (fault : Option (Nat × Exn)) (s : Sim) : List Msg × RunExit × Sim :=
  match get_channel s.guild text_channel_id with
  | none => ([], RunExit.normal, s)
  | some tc =>
    if !isMessageable tc then ([], RunExit.normal, s)
    else
      let out := pomoLoop work brk cycles fault cycles 1 0 s
      match out.exn with
      | none =>
        let r := stop_session "Pomodoro completed" out.sim
        let tail := match r.1 with | some d => [Msg.completed d] | none => []
        (out.msgs ++ tail, RunExit.normal, popPomoState r.2)
      | some Exn.cancelled =>
        let r := stop_session "Pomodoro stopped" out.sim
        let tail := match r.1 with | some d => [Msg.stopped d] | none => []
        (out.msgs ++ tail, RunExit.cancelled, popPomoState r.2)
      | some _ =>
        (out.msgs, RunExit.errored, popPomoState out.sim)

/-- Reply outcomes of the `/pomodoro_start` command handler. -/
inductive PomoStartResult where
  | alreadyRunning
  | couldNotStart
  | started (taskId : Nat)
  deriving DecidableEq

/-- Source `pomodoro_start` command body (bot.py lines 590-625), after the
guild/channel guard: reject when a Pomodoro State entry exists; otherwise
start (or reuse) the study session, then create the cycle task and record
the Pomodoro State entry. -/
def pomodoro_start (text_chan_id work brk cycles : Nat) (s : Sim) :
    PomoStartResult × Sim :=
  if (alookup s.bot.pomodoro_states s.guild.id).isSome then
    (PomoStartResult.alreadyRunning, s)
  else
    let r := start_session s
    let started := r.1.1
    let s1 := r.2
    if !started && (alookup s1.bot.active_sessions s1.guild.id).isNone then
      (PomoStartResult.couldNotStart, s1)
    else
      let tid := s1.bot.next_task_id
      let pst : PomodoroState :=
        { task := tid, text_channel_id := text_chan_id,
          work_minutes := work, break_minutes := brk, cycles := cycles }
      let st :=
        { s1.bot with
          next_task_id := tid + 1,
          pomodoro_states := aset s1.bot.pomodoro_states s1.guild.id pst }
      (PomoStartResult.started tid, { s1 with bot := st })

/-! ## Spec-side observers and patterns -/

/-- Whether a message is a focus-phase announcement. -/
def isFocusMsg : Msg → Bool
  | Msg.focus _ _ _ => true
  | _ => false

/-- Whether a message is a break-phase announcement. -/
def isBreakMsg : Msg → Bool
  | Msg.brk _ => true
  | _ => false

/-- Spec-side pattern of the spec sentence "exactly N focus-phase
announcements and exactly N-1 break-phase announcements, in that strict
alternating order": starting at cycle number `cycle` with `iters`
iterations left out of `cycles`, announce focus, and unless this was the
final cycle announce a break and continue. -/
def pomoScheduleMsgs (work brk cycles : Nat) : Nat → Nat → List Msg
  | 0, _ => []
  | iters + 1, cycle =>
    Msg.focus cycle cycles work ::
      (if cycle = cycles then []
       else Msg.brk brk :: pomoScheduleMsgs work brk cycles iters (cycle + 1))

/-- Spec-side alternation shape: a nonempty list that starts with a focus
announcement, strictly alternates focus/break, and ends with a focus
announcement (no break after the final focus phase). -/
def focusThenAlternating : List Msg → Bool
  | [Msg.focus _ _ _] => true
  | Msg.focus _ _ _ :: Msg.brk _ :: rest => focusThenAlternating rest
  | _ => false

/-- Spec-side description of which member ids one enforcement tick
attempts to mute, given the platform's forbidden set: the eligible
members (non-bot, in voice, currently unmuted) in channel order, cut off
at (and including) the first one the platform refuses. -/
def attemptedSpecList (forb : List Nat) : List Member → List Nat
  | [] => []
  | m :: rest =>
    if m.bot || !m.inVoice then attemptedSpecList forb rest
    else if m.mute then attemptedSpecList forb rest
    else if m.id ∈ forb then [m.id] else m.id :: attemptedSpecList forb rest

/-! ## Frame lemmas -/

theorem alookup_apop_self {α : Type} (l : List (Nat × α)) (k : Nat) :
    alookup (apop l k).2 k = none := by
  cases h : alookup l k
  · simp [apop, h]
  · simp [apop, h, alookup_aerase_self]

theorem editMute_some_fields {g : Guild} {uid : Nat} {b : Bool} {g' : Guild}
    (h : editMute g uid b = some g') :
    g'.id = g.id ∧ g'.forbidden = g.forbidden := by
  by_cases huid : uid ∈ g.forbidden
  · simp [editMute, huid] at h
  · simp only [editMute, huid, if_false, Option.some.injEq] at h
    subst h
    exact ⟨rfl, rfl⟩

theorem editMute_none_iff (g : Guild) (uid : Nat) (b : Bool) :
    editMute g uid b = none ↔ uid ∈ g.forbidden := by
  by_cases huid : uid ∈ g.forbidden <;> simp [editMute, huid]

theorem addEnforced_active (st : BotState) (gid uid : Nat) :
    (addEnforced st gid uid).active_sessions = st.active_sessions := by
  simp [addEnforced]


theorem focusMuteLoop_guild_id (gid : Nat) :
    ∀ (ms : List Member) (g : Guild) (st : BotState),
      (focusMuteLoop gid ms g st).1.id = g.id := by
  intro ms
  induction ms with
  | nil => intro g st; rfl
  | cons m rest ih =>
    intro g st
    by_cases h1 : (m.bot || !m.inVoice || m.mute) = true
    · simpa [focusMuteLoop, h1] using ih g st
    · cases he : editMute g m.id true with
      | none => simpa [focusMuteLoop, h1, he] using ih g st
      | some g2 =>
        have hf := editMute_some_fields he
        simp [focusMuteLoop, h1, he, ih g2 (addEnforced st gid m.id), hf.1]

theorem focusMuteLoop_active (gid : Nat) :
    ∀ (ms : List Member) (g : Guild) (st : BotState),
      (focusMuteLoop gid ms g st).2.active_sessions = st.active_sessions := by
  intro ms
  induction ms with
  | nil => intro g st; rfl
  | cons m rest ih =>
    intro g st
    by_cases h1 : (m.bot || !m.inVoice || m.mute) = true
    · simpa [focusMuteLoop, h1] using ih g st
    · cases he : editMute g m.id true with
      | none => simpa [focusMuteLoop, h1, he] using ih g st
      | some g2 =>
        simp [focusMuteLoop, h1, he, ih g2 (addEnforced st gid m.id), addEnforced_active]

theorem accrue_active (gid uid : Nat) (now : Int) (st : BotState) :
    (accrue_user_time gid uid now st).active_sessions = st.active_sessions := by
  cases h1 : alookup st.session_joined_at gid with
  | none => simp [accrue_user_time, h1]
  | some ledger =>
    cases h2 : apop ledger uid with
    | mk o l => cases o <;> simp [accrue_user_time, h1, h2]

theorem accrueAll_active (gid : Nat) (now : Int) :
    ∀ (keys : List Nat) (st : BotState),
      (accrueAll gid now keys st).active_sessions = st.active_sessions := by
  intro keys
  induction keys with
  | nil => intro st; rfl
  | cons u rest ih =>
    intro st
    show (accrueAll gid now rest (accrue_user_time gid u now st)).active_sessions = _
    rw [ih, accrue_active]

theorem unmuteEnforced_id (gid : Nat) :
    ∀ (ms : List Member) (g : Guild) (st : BotState),
      (unmuteEnforced gid ms g st).id = g.id := by
  intro ms
  induction ms with
  | nil => intro g st; rfl
  | cons m rest ih =>
    intro g st
    by_cases h1 : m.bot = true
    · simpa [unmuteEnforced, h1] using ih g st
    · by_cases h2 : (decide (m.id ∈ (alookup st.enforced_user_ids gid).getD []) && m.inVoice && m.mute) = true
      · cases he : editMute g m.id false with
        | none => simpa [unmuteEnforced, h1, h2, he] using ih g st
        | some g2 =>
          have hf := editMute_some_fields he
          simp [unmuteEnforced, h1, h2, he, ih g2 st, hf.1]
      · simpa [unmuteEnforced, h1, h2] using ih g st

theorem set_focus_mode_active (enabled : Bool) (s : Sim) :
    (set_focus_mode enabled s).bot.active_sessions = s.bot.active_sessions := by
  cases h1 : alookup s.bot.active_sessions s.guild.id with
  | none => simp [set_focus_mode, h1]
  | some sess =>
    cases h2 : get_channel s.guild sess.voice_channel_id with
    | none => simp [set_focus_mode, h1, h2]
    | some channel =>
      by_cases h3 : channel.kind = ChanKind.voice
      · cases enabled <;>
          simp [set_focus_mode, h1, h2, h3, focusMuteLoop_active, accrueAll_active]
      · simp [set_focus_mode, h1, h2, h3]

theorem set_focus_mode_guild_id (enabled : Bool) (s : Sim) :
    (set_focus_mode enabled s).guild.id = s.guild.id := by
  cases h1 : alookup s.bot.active_sessions s.guild.id with
  | none => simp [set_focus_mode, h1]
  | some sess =>
    cases h2 : get_channel s.guild sess.voice_channel_id with
    | none => simp [set_focus_mode, h1, h2]
    | some channel =>
      by_cases h3 : channel.kind = ChanKind.voice
      · cases enabled <;>
          simp [set_focus_mode, h1, h2, h3, focusMuteLoop_guild_id, unmuteEnforced_id]
      · simp [set_focus_mode, h1, h2, h3]

theorem doSleep_bot (fault : Option (Nat × Exn)) (idx dur : Nat) (s : Sim) :
    (doSleep fault idx dur s).2.bot = s.bot := by
  unfold doSleep
  cases fault with
  | none => rfl
  | some f => by_cases h : f.1 = idx <;> simp [h]

theorem doSleep_guild (fault : Option (Nat × Exn)) (idx dur : Nat) (s : Sim) :
    (doSleep fault idx dur s).2.guild = s.guild := by
  unfold doSleep
  cases fault with
  | none => rfl
  | some f => by_cases h : f.1 = idx <;> simp [h]

theorem pomoLoop_active (work brk cycles : Nat) (fault : Option (Nat × Exn)) :
    ∀ (iters cycle sleepIdx : Nat) (s : Sim),
      (pomoLoop work brk cycles fault iters cycle sleepIdx s).sim.bot.active_sessions
        = s.bot.active_sessions := by
  intro iters
  induction iters with
  | zero => intro cycle si s; rfl
  | succ n ih =>
    intro cycle si s
    cases h1 : doSleep fault si (work * 60) (set_focus_mode true s) with
    | mk o1 s2 =>
      have hb1 : s2.bot = (set_focus_mode true s).bot := by
        have := doSleep_bot fault si (work * 60) (set_focus_mode true s)
        rw [h1] at this; exact this
      cases o1 with
      | some e =>
        simp [pomoLoop, h1, hb1, set_focus_mode_active]
      | none =>
        by_cases hc : cycle = cycles
        · simp [pomoLoop, h1, hc, hb1, set_focus_mode_active]
        · cases h2 : doSleep fault (si + 1) (brk * 60) (set_focus_mode false s2) with
          | mk o2 s4 =>
            have hb2 : s4.bot = (set_focus_mode false s2).bot := by
              have := doSleep_bot fault (si + 1) (brk * 60) (set_focus_mode false s2)
              rw [h2] at this; exact this
            cases o2 with
            | some e =>
              simp [pomoLoop, h1, hc, h2, hb2, set_focus_mode_active, hb1]
            | none =>
              simp [pomoLoop, h1, hc, h2, ih, hb2, set_focus_mode_active, hb1]

theorem pomoLoop_guild_id (work brk cycles : Nat) (fault : Option (Nat × Exn)) :
    ∀ (iters cycle sleepIdx : Nat) (s : Sim),
      (pomoLoop work brk cycles fault iters cycle sleepIdx s).sim.guild.id
        = s.guild.id := by
  intro iters
  induction iters with
  | zero => intro cycle si s; rfl
  | succ n ih =>
    intro cycle si s
    cases h1 : doSleep fault si (work * 60) (set_focus_mode true s) with
    | mk o1 s2 =>
      have hb1 : s2.guild = (set_focus_mode true s).guild := by
        have := doSleep_guild fault si (work * 60) (set_focus_mode true s)
        rw [h1] at this; exact this
      cases o1 with
      | some e =>
        simp [pomoLoop, h1, hb1, set_focus_mode_guild_id]
      | none =>
        by_cases hc : cycle = cycles
        · simp [pomoLoop, h1, hc, hb1, set_focus_mode_guild_id]
        · cases h2 : doSleep fault (si + 1) (brk * 60) (set_focus_mode false s2) with
          | mk o2 s4 =>
            have hb2 : s4.guild = (set_focus_mode false s2).guild := by
              have := doSleep_guild fault (si + 1) (brk * 60) (set_focus_mode false s2)
              rw [h2] at this; exact this
            cases o2 with
            | some e =>
              simp [pomoLoop, h1, hc, h2, hb2, set_focus_mode_guild_id, hb1]
            | none =>
              simp [pomoLoop, h1, hc, h2, ih, hb2, set_focus_mode_guild_id, hb1]

theorem pomoLoop_none_msgs (work brk cycles : Nat) :
    ∀ (iters cycle sleepIdx : Nat) (s : Sim),
      (pomoLoop work brk cycles none iters cycle sleepIdx s).msgs
        = pomoScheduleMsgs work brk cycles iters cycle ∧
      (pomoLoop work brk cycles none iters cycle sleepIdx s).exn = none := by
  intro iters
  induction iters with
  | zero => intro cycle si s; exact ⟨rfl, rfl⟩
  | succ n ih =>
    intro cycle si s
    by_cases hc : cycle = cycles <;>
      simp [pomoLoop, doSleep, hc, pomoScheduleMsgs, ih]

theorem stop_rest_active (reason : String) (sess : ActiveSession) (s : Sim) :
    (stop_rest reason sess s).2.bot.active_sessions = s.bot.active_sessions := by
  unfold stop_rest
  cases h1 : get_channel s.guild sess.voice_channel_id with
  | none =>
    cases h2 : sess.enforce_mute_task <;>
      cases h3 : apop (accrueAll s.guild.id s.clock (ledgerKeys s.bot s.guild.id) s.bot).active_session_record_id s.guild.id with
    | mk o l => cases o <;> simp [h1, h2, h3, accrueAll_active]
  | some channel =>
    cases h2 : sess.enforce_mute_task <;>
      cases h3 : apop (accrueAll s.guild.id s.clock (ledgerKeys s.bot s.guild.id) s.bot).active_session_record_id s.guild.id with
    | mk o l => cases o <;> by_cases h4 : channel.kind = ChanKind.voice <;> simp [h1, h2, h3, h4, accrueAll_active]

theorem stop_rest_guild_id (reason : String) (sess : ActiveSession) (s : Sim) :
    (stop_rest reason sess s).2.guild.id = s.guild.id := by
  unfold stop_rest
  cases h1 : get_channel s.guild sess.voice_channel_id with
  | none =>
    cases h2 : sess.enforce_mute_task <;>
      cases h3 : apop (accrueAll s.guild.id s.clock (ledgerKeys s.bot s.guild.id) s.bot).active_session_record_id s.guild.id with
    | mk o l => cases o <;> simp [h1, h2, h3]
  | some channel =>
    cases h2 : sess.enforce_mute_task <;>
      cases h3 : apop (accrueAll s.guild.id s.clock (ledgerKeys s.bot s.guild.id) s.bot).active_session_record_id s.guild.id with
    | mk o l =>
      cases o <;> by_cases h4 : channel.kind = ChanKind.voice <;>
        simp [h1, h2, h3, h4, unmuteEnforced_id]

theorem stop_session_absent (reason : String) (s : Sim)
    (h : alookup s.bot.active_sessions s.guild.id = none) :
    stop_session reason s = (none, s) := by
  simp [stop_session, stop_phase1, apop, h]

theorem stop_session_found (reason : String) (s : Sim) (sess : ActiveSession)
    (h : alookup s.bot.active_sessions s.guild.id = some sess) :
    ∃ s' : Sim,
      stop_session reason s = (some (s.clock - sess.started_at), s') ∧
      s'.bot.active_sessions = aerase s.bot.active_sessions s.guild.id ∧
      s'.guild.id = s.guild.id := by
  have hpop := apop_of_present s.bot.active_sessions s.guild.id sess h
  have hphase : stop_phase1 s =
      (some sess, { s with bot := { s.bot with active_sessions := aerase s.bot.active_sessions s.guild.id } }) := by
    simp [stop_phase1, hpop]
  set s1 : Sim :=
    { s with bot := { s.bot with active_sessions := aerase s.bot.active_sessions s.guild.id } } with hs1
  refine ⟨(stop_rest reason sess s1).2, ?_, ?_, ?_⟩
  · have : stop_session reason s = (some (stop_rest reason sess s1).1, (stop_rest reason sess s1).2) := by
      simp [stop_session, hphase]
    rw [this]
    have hdur : (stop_rest reason sess s1).1 = s1.clock - sess.started_at := by
      simp [stop_rest]
    rw [hdur]
  · rw [stop_rest_active]
  · rw [stop_rest_guild_id]

theorem lookupTotal_upsertRow {β : Type} (p : β → Bool) (total : β → Int)
    (bump : β → β) (mk : β) (s : Int)
    (hbp : ∀ r, p r = true → p (bump r) = true)
    (hbt : ∀ r, p r = true → total (bump r) = total r + s)
    (hmkp : p mk = true) (hmkt : total mk = s) :
    ∀ rows : List β,
      lookupTotal p total (upsertRow p bump mk rows)
        = lookupTotal p total rows + s := by
  intro rows
  induction rows with
  | nil => simp [upsertRow, lookupTotal, List.find?, hmkp, hmkt]
  | cons r rs ih =>
    by_cases hpr : p r = true
    · simp [upsertRow, lookupTotal, List.find?, hpr, hbp r hpr, hbt r hpr]
    · simp only [upsertRow, hpr, if_false, Bool.false_eq_true]
      simp only [lookupTotal, List.find?, hpr] at ih ⊢
      simpa [Bool.not_eq_true] using ih

theorem find?_filter_keep {β : Type} (p q : β → Bool)
    (h : ∀ r, p r = true → q r = true) :
    ∀ rows : List β, (rows.filter q).find? p = rows.find? p := by
  intro rows
  induction rows with
  | nil => simp
  | cons r rs ih =>
    by_cases hpr : p r = true
    · simp [List.filter, h r hpr, List.find?, hpr]
    · cases hq : q r <;> simp [List.filter, hq, List.find?, hpr, ih]

theorem find?_filter_drop {β : Type} (p q : β → Bool)
    (h : ∀ r, p r = true → q r = false) :
    ∀ rows : List β, (rows.filter q).find? p = none := by
  intro rows
  induction rows with
  | nil => simp
  | cons r rs ih =>
    by_cases hpr : p r = true
    · simp [List.filter, h r hpr, ih]
    · cases hq : q r <;> simp [List.filter, hq, List.find?, hpr, ih]

theorem add_study_seconds_nonpos (store : StudyStore) (g u : Nat) (sec : Int)
    (t : DateTime) (h : sec ≤ 0) : add_study_seconds store g u sec t = store := by
  simp [add_study_seconds, h]

theorem get_user_seconds_add (store : StudyStore) (g u : Nat) (sec : Int)
    (t : DateTime) (h : 0 < sec) :
    get_user_seconds (add_study_seconds store g u sec t) g u
      = get_user_seconds store g u + sec := by
  have hns : ¬ sec ≤ 0 := by omega
  unfold add_study_seconds get_user_seconds
  simp only [hns, if_false]
  exact lookupTotal_upsertRow (studyKey g u) (fun r => r.total_seconds)
    (fun r => { r with total_seconds := r.total_seconds + sec })
    { guild_id := g, user_id := u, total_seconds := sec } sec
    (fun r hr => hr) (fun r hr => rfl) (by simp [studyKey]) rfl
    store.study_time

theorem weekly_user_seconds_add (store : StudyStore) (g u : Nat) (sec : Int)
    (t : DateTime) (h : 0 < sec) :
    weekly_user_seconds (add_study_seconds store g u sec t) g u (week_start_utc t)
      = weekly_user_seconds store g u (week_start_utc t) + sec := by
  have hns : ¬ sec ≤ 0 := by omega
  unfold add_study_seconds weekly_user_seconds
  simp only [hns, if_false]
  exact lookupTotal_upsertRow (weeklyKey g u (week_start_utc t)) (fun r => r.total_seconds)
    (fun r => { r with total_seconds := r.total_seconds + sec })
    { guild_id := g, user_id := u, week_start := week_start_utc t, total_seconds := sec } sec
    (fun r hr => hr) (fun r hr => rfl) (by simp [weeklyKey]) rfl
    store.weekly_study_time

theorem pomoScheduleMsgs_counts (work brk cycles : Nat) :
    ∀ (iters cycle : Nat), iters + cycle = cycles + 1 → 1 ≤ iters →
      (pomoScheduleMsgs work brk cycles iters cycle).countP isFocusMsg = iters ∧
      (pomoScheduleMsgs work brk cycles iters cycle).countP isBreakMsg = iters - 1 ∧
      focusThenAlternating (pomoScheduleMsgs work brk cycles iters cycle) = true := by
  intro iters
  induction iters with
  | zero => intro cycle hinv h1; exact absurd h1 (by omega)
  | succ n ih =>
    intro cycle hinv h1
    by_cases hc : cycle = cycles
    · have hn : n = 0 := by omega
      subst hn
      simp [pomoScheduleMsgs, hc, isFocusMsg, isBreakMsg, focusThenAlternating]
    · have hn : 1 ≤ n := by omega
      have hrec := ih (cycle + 1) (by omega) hn
      refine ⟨?_, ?_, ?_⟩
      · simp [pomoScheduleMsgs, hc, List.countP_cons, isFocusMsg, isBreakMsg, hrec.1]
      · simp only [pomoScheduleMsgs, hc, if_false, List.countP_cons, isFocusMsg, isBreakMsg,
          hrec.2.1]
        simp [isFocusMsg, isBreakMsg]
        omega
      · simp only [pomoScheduleMsgs, hc, if_false]
        simpa [focusThenAlternating] using hrec.2.2

theorem mutePass_attempted (gid : Nat) :
    ∀ (ms : List Member) (g : Guild) (st : BotState),
      (mutePass gid ms g st).attempted = attemptedSpecList g.forbidden ms := by
  intro ms
  induction ms with
  | nil => intro g st; rfl
  | cons m rest ih =>
    intro g st
    by_cases h1 : (m.bot || !m.inVoice) = true
    · simp [mutePass, attemptedSpecList, h1, ih g st]
    · by_cases h2 : m.mute = true
      · simp [mutePass, attemptedSpecList, h1, h2, ih g st]
      · by_cases h3 : m.id ∈ g.forbidden
        · have hno : editMute g m.id true = none := (editMute_none_iff g m.id true).2 h3
          simp [mutePass, attemptedSpecList, h1, h2, h3, hno]
        · cases he : editMute g m.id true with
          | none => exact absurd ((editMute_none_iff g m.id true).1 he) h3
          | some g2 =>
            have hf := editMute_some_fields he
            simp [mutePass, attemptedSpecList, h1, h2, h3, he,
              ih g2 (addEnforced st gid m.id), hf.2]

/-! ## Concrete fixtures for witnesses and counterexamples -/

def mC1 : Member := { id := 1, bot := false, inVoice := true, mute := false }

def mC2 : Member := { id := 2, bot := false, inVoice := true, mute := false }

def chanC : Channel :=
  { id := 10, kind := ChanKind.voice, name := "Focused Study Room",
    parent := none, members := [mC1, mC2] }

def textC : Channel :=
  { id := 5, kind := ChanKind.text, name := "general", parent := none, members := [] }

def guildC : Guild :=
  { id := 1, channels := [textC, chanC], forbidden := [1], next_channel_id := 100 }

def guildOk : Guild :=
  { id := 1, channels := [textC, chanC], forbidden := [], next_channel_id := 100 }

def sessC : ActiveSession :=
  { guild_id := 1, voice_channel_id := 10, started_at := 1000, enforce_mute_task := some 7 }

def storeC : StudyStore :=
  { study_time := [], weekly_study_time := [], session_history := [],
    guild_config := [], next_session_id := 1 }

def stC : BotState :=
  { store := storeC, active_sessions := [(1, sessC)],
    active_session_record_id := [(1, 1)], enforced_user_ids := [(1, [])],
    session_joined_at := [(1, [])], focus_mode_active := [(1, true)],
    pomodoro_states := [], next_task_id := 8, cancelled_tasks := [] }

def simC : Sim := { bot := stC, guild := guildOk, clock := 2000 }

def stNo : BotState := { stC with active_sessions := [] }

def simNo : Sim := { bot := stNo, guild := guildOk, clock := 2000 }

def pstC : PomodoroState :=
  { task := 3, text_channel_id := 99, work_minutes := 25, break_minutes := 5, cycles := 2 }

def simP : Sim :=
  { bot := { stC with pomodoro_states := [(1, pstC)] }, guild := guildOk, clock := 2000 }

def storeW : StudyStore :=
  { study_time := [{ guild_id := 1, user_id := 2, total_seconds := 500 }],
    weekly_study_time :=
      [{ guild_id := 1, user_id := 2, week_start := 4, total_seconds := 100 },
       { guild_id := 1, user_id := 2, week_start := 11, total_seconds := 50 },
       { guild_id := 2, user_id := 3, week_start := 4, total_seconds := 70 }],
    session_history := [], guild_config := [], next_session_id := 1 }

/-! ## Claim theorems -/

/-- C1: for every community, calling start while a session is already
active returns `started = false` together with the existing session's
channel (as the source resolves it: `guild.get_channel` filtered to voice
channels), creates no second session, and leaves the state — the original
session's start instant and every other piece of per-community state
included — entirely unchanged. -/
theorem start_session_already_active (s : Sim) (sess : ActiveSession)
    (h : alookup s.bot.active_sessions s.guild.id = some sess) :
    start_session s = ((false, resolveVoiceChannel s.guild sess.voice_channel_id), s) := by
  simp [start_session, h]

/-- Witness for C1: a concrete second start returns `false` with the
existing channel and the state is untouched. -/
theorem start_session_already_active_witness :
    start_session simC = ((false, some chanC), simC) := by
  have h := start_session_already_active simC sessC (by decide)
  rw [h]
  decide

/-- C2: for every community with no active session, stop returns `none`
and performs no mutation at all — presence ledger, enforced-user set,
focus-mode flag, session registry, durable store, platform state and
clock are exactly as before. -/
theorem stop_session_noop_when_inactive (reason : String) (s : Sim)
    (h : alookup s.bot.active_sessions s.guild.id = none) :
    stop_session reason s = (none, s) :=
  stop_session_absent reason s h

/-- Witness for C2 at a concrete state with no active session. -/
theorem stop_session_noop_when_inactive_witness :
    stop_session "Study session ended" simNo = (none, simNo) :=
  stop_session_noop_when_inactive "Study session ended" simNo (by decide)

/-- C7: the weekly bucket key is the date of the most recent Monday 00:00
UTC at or before the instant — it is a Monday, its midnight lies at or
before the instant, and it is the greatest such Monday; it depends only on
the absolute instant (identical for any two datetimes denoting the same
instant regardless of their attached time zones, and the function is
deterministic being a pure function); and any two instants inside the same
Monday-to-Sunday UTC week receive the same key. -/
theorem week_start_utc_spec (dt : DateTime) :
    (week_start_utc dt + 3) % 7 = 0 ∧
    week_start_utc dt * 86400 ≤ dt.epoch ∧
    (∀ m : Int, (m + 3) % 7 = 0 → m * 86400 ≤ dt.epoch → m ≤ week_start_utc dt) ∧
    (∀ dt2 : DateTime, dt2.epoch = dt.epoch → week_start_utc dt2 = week_start_utc dt) ∧
    (∀ dt2 : DateTime, week_start_utc dt * 86400 ≤ dt2.epoch →
      dt2.epoch < (week_start_utc dt + 7) * 86400 → week_start_utc dt2 = week_start_utc dt) := by
  simp only [week_start_utc, astimezoneUtc, DateTime.subDays, DateTime.toDate,
    DateTime.wallSeconds, DateTime.weekday]
  refine ⟨by omega, by omega, ?_, ?_, ?_⟩
  · intro m h1 h2; omega
  · intro dt2 h1; omega
  · intro dt2 h1 h2; omega

/-- Witness for C7 at the instant 350000 s (inside the UTC week starting
Monday 1970-01-05, day 4): a −2 h zone offset does not change the key,
and day 4 is reachable as the maximal Monday. -/
theorem week_start_utc_spec_witness :
    week_start_utc { epoch := 350000, tzOffset := 0 }
        = week_start_utc { epoch := 350000, tzOffset := -7200 } ∧
    (4 : Int) ≤ week_start_utc { epoch := 350000, tzOffset := -7200 } := by
  have h := week_start_utc_spec { epoch := 350000, tzOffset := -7200 }
  exact ⟨h.2.2.2.1 { epoch := 350000, tzOffset := 0 } rfl,
         h.2.2.1 4 (by decide) (by decide)⟩

/-- C9: resetting week `w` for community `g` returns exactly the number of
rows removed, empties exactly that community's bucket for that week, and
leaves weekly totals of every other (community, week) pair, the whole
all-time table (hence every all-time total) and the session history
untouched. -/
theorem reset_weekly_data_spec (store : StudyStore) (g : Nat) (w : Int) :
    (reset_weekly_data store g w).1
      = (store.weekly_study_time.filter
          (fun r => r.guild_id == g && r.week_start == w)).length ∧
    (∀ u, weekly_user_seconds (reset_weekly_data store g w).2 g u w = 0) ∧
    (∀ g' u w', ¬(g' = g ∧ w' = w) →
      weekly_user_seconds (reset_weekly_data store g w).2 g' u w'
        = weekly_user_seconds store g' u w') ∧
    (reset_weekly_data store g w).2.study_time = store.study_time ∧
    (∀ g' u, get_user_seconds (reset_weekly_data store g w).2 g' u
      = get_user_seconds store g' u) ∧
    (reset_weekly_data store g w).2.session_history = store.session_history := by
  refine ⟨rfl, ?_, ?_, rfl, fun g' u => rfl, rfl⟩
  · intro u
    unfold weekly_user_seconds lookupTotal reset_weekly_data
    rw [find?_filter_drop]
    intro r hr
    simp only [weeklyKey, Bool.and_eq_true, beq_iff_eq] at hr
    simp [hr.1.1, hr.2]
  · intro g' u w' hne
    unfold weekly_user_seconds lookupTotal reset_weekly_data
    rw [find?_filter_keep]
    intro r hr
    simp only [weeklyKey, Bool.and_eq_true, beq_iff_eq] at hr
    simp only [hr.1.1, hr.2, Bool.not_eq_false']
    by_cases hg : g' = g
    · have hw : ¬ w' = w := fun hw => hne ⟨hg, hw⟩
      simp [hg, hw]
    · simp [hg]

/-- Witness for C9 on a concrete store: resetting week 4 of community 1
removes one row, empties that bucket, and leaves community 1's week 11,
community 2's week 4 and the all-time total intact. -/
theorem reset_weekly_data_spec_witness :
    (reset_weekly_data storeW 1 4).1 = 1 ∧
    weekly_user_seconds (reset_weekly_data storeW 1 4).2 1 2 4 = 0 ∧
    weekly_user_seconds (reset_weekly_data storeW 1 4).2 1 2 11 = 50 ∧
    weekly_user_seconds (reset_weekly_data storeW 1 4).2 2 3 4 = 70 ∧
    get_user_seconds (reset_weekly_data storeW 1 4).2 1 2 = 500 := by
  have h := reset_weekly_data_spec storeW 1 4
  refine ⟨h.1.trans (by decide), h.2.1 2, ?_, ?_, ?_⟩
  · exact (h.2.2.1 1 2 11 (by decide)).trans (by decide)
  · exact (h.2.2.1 2 3 4 (by decide)).trans (by decide)
  · exact (h.2.2.2.2.1 1 2).trans (by decide)

/-- C10: `stop_session`'s very first step — the atomic segment before its
first `await`, modelled as `stop_phase1` — pops the community's registry
entry.  Afterwards the registry has no entry for the community, so any
stop call that begins later (in particular one interleaved at any
suspension point of the first stop, as long as no new session has been
started) returns `none` and leaves its entire state, the session-history
table included, untouched — hence each history record is closed at most
once.  The last conjunct instantiates this for a second stop run on the
state the first stop produced. -/
theorem stop_session_pop_first (reason : String) (s : Sim) (sess : ActiveSession)
    (h : alookup s.bot.active_sessions s.guild.id = some sess) :
    (stop_phase1 s).1 = some sess ∧
    alookup ((stop_phase1 s).2).bot.active_sessions s.guild.id = none ∧
    (∀ (reason2 : String) (s2 : Sim),
      alookup s2.bot.active_sessions s2.guild.id = none →
      stop_session reason2 s2 = (none, s2)) ∧
    (∀ reason2 : String,
      stop_session reason2 (stop_session reason s).2
        = (none, (stop_session reason s).2)) := by
  obtain ⟨s', hs', hact, hgid⟩ := stop_session_found reason s sess h
  refine ⟨?_, ?_, ?_, ?_⟩
  · simp [stop_phase1, apop_of_present _ _ _ h]
  · simp [stop_phase1, apop_of_present _ _ _ h, alookup_aerase_self]
  · intro reason2 s2 h2
    exact stop_session_absent reason2 s2 h2
  · intro reason2
    rw [hs']
    apply stop_session_absent
    rw [hgid, hact]
    exact alookup_aerase_self _ _

/-- Witness for C10 at a concrete state: the pop yields the session, the
registry is empty afterwards, and a second stop (after the first) is a
`none`-returning no-op. -/
theorem stop_session_pop_first_witness :
    (stop_phase1 simC).1 = some sessC ∧
    alookup ((stop_phase1 simC).2).bot.active_sessions 1 = none ∧
    stop_session "b" (stop_session "a" simC).2 = (none, (stop_session "a" simC).2) := by
  have h := stop_session_pop_first "a" simC sessC (by decide)
  exact ⟨h.1, h.2.1, h.2.2.2 "b"⟩

def stJ : BotState := { stC with session_joined_at := [(1, [(2, 380)])] }

/-- C3: `accrue_user_time` removes the user's join instant from the
presence ledger (a no-op leaving everything unchanged when the entry — or
the community's whole ledger — is absent) and, when an entry `j` was
present, persists exactly the elapsed whole seconds `now - j` to both the
all-time total and the bucket of the ISO week containing `now`; an
elapsed amount of zero or fewer seconds is never persisted to either
total (the store is then untouched).  Instants are whole seconds, so
`now - j` is the floor of the elapsed time of the spec. -/
theorem accrue_user_time_spec (gid uid : Nat) (now : Int) (st : BotState) :
    (ledgerLookup st gid uid = none → accrue_user_time gid uid now st = st) ∧
    (∀ j, ledgerLookup st gid uid = some j →
      ledgerLookup (accrue_user_time gid uid now st) gid uid = none ∧
      (0 < now - j →
        get_user_seconds (accrue_user_time gid uid now st).store gid uid
          = get_user_seconds st.store gid uid + (now - j) ∧
        weekly_user_seconds (accrue_user_time gid uid now st).store gid uid
            (week_start_utc (utcNow now))
          = weekly_user_seconds st.store gid uid (week_start_utc (utcNow now)) + (now - j)) ∧
      (now - j ≤ 0 → (accrue_user_time gid uid now st).store = st.store)) := by
  cases houter : alookup st.session_joined_at gid with
  | none =>
    constructor
    · intro _; simp [accrue_user_time, houter]
    · intro j hj
      exfalso
      simp [ledgerLookup, houter] at hj
  | some ledger =>
    cases hinner : alookup ledger uid with
    | none =>
      have hpop := apop_of_absent ledger uid hinner
      constructor
      · intro _; simp [accrue_user_time, houter, hpop]
      · intro j hj
        exfalso
        simp [ledgerLookup, houter, hinner] at hj
    | some j0 =>
      have hpop := apop_of_present ledger uid j0 hinner
      have hL : ledgerLookup st gid uid = some j0 := by
        simp [ledgerLookup, houter, hinner]
      have hacc : accrue_user_time gid uid now st =
          { st with
            session_joined_at := aset st.session_joined_at gid (aerase ledger uid),
            store := add_study_seconds st.store gid uid (now - j0) (utcNow now) } := by
        simp [accrue_user_time, houter, hpop]
      constructor
      · intro hnone
        rw [hL] at hnone
        cases hnone
      · intro j hj
        rw [hL] at hj
        have hj0 : j0 = j := Option.some.inj hj
        subst hj0
        refine ⟨?_, ?_, ?_⟩
        · rw [hacc]
          simp [ledgerLookup, alookup_aset_self, alookup_aerase_self]
        · intro hpos
          rw [hacc]
          exact ⟨get_user_seconds_add st.store gid uid (now - j0) (utcNow now) hpos,
                 weekly_user_seconds_add st.store gid uid (now - j0) (utcNow now) hpos⟩
        · intro hle
          rw [hacc]
          simp [add_study_seconds_nonpos st.store gid uid (now - j0) (utcNow now) hle]

/-- Witness for C3: user 2 joined at 380 and accrues at 500, adding
exactly 120 s to both totals and clearing the ledger entry. -/
theorem accrue_user_time_spec_witness :
    ledgerLookup (accrue_user_time 1 2 500 stJ) 1 2 = none ∧
    get_user_seconds (accrue_user_time 1 2 500 stJ).store 1 2 = 120 ∧
    weekly_user_seconds (accrue_user_time 1 2 500 stJ).store 1 2
      (week_start_utc (utcNow 500)) = 120 := by
  have h := (accrue_user_time_spec 1 2 500 stJ).2 380 (by decide)
  have hp := h.2.1 (by decide)
  exact ⟨h.1, hp.1.trans (by decide), hp.2.trans (by decide)⟩

/-- Counterexample to C5 as stated.  In `guildC`, channel 10 holds two
eligible (non-bot, in-voice, unmuted) members: member 1, whom the
platform refuses to edit (`discord.Forbidden`), and member 2, whom it
would accept.  The claim says member 2 is still attempted in the same
tick; but the tick's attempted list is exactly `[1]` — the `except`
clauses of `enforce_channel_mute` sit outside the `for` loop, so the
Forbidden aborts the rest of the pass and member 2 is not attempted until
the next tick. -/
theorem enforce_tick_abort_counterexample :
    tickAttempted (enforceTick 1 10 none stC guildC) = [1] ∧
    ¬ (2 ∈ tickAttempted (enforceTick 1 10 none stC guildC)) := by
  decide

/-- C5 (amended): in one enforcement-loop iteration with focus mode on, a
permission failure while muting one member aborts the remainder of that
iteration's pass — the ids attempted are exactly the eligible members in
channel order up to and including the first forbidden one — but the
failure is absorbed rather than fatal: the iteration still ends in "sleep
10 seconds and run the next tick", where the pass restarts from the
beginning, so the skipped members are retried on the next tick rather
than in the same tick. -/
theorem enforce_tick_attempted (sid chanId : Nat) (st : BotState) (g : Guild)
    (sess : ActiveSession)
    (hs : alookup st.active_sessions sid = some sess)
    (hf : (alookup st.focus_mode_active sid).getD true = true) :
    ∃ st' g', enforceTick sid chanId none st g
      = TickResult.next 10 (attemptedSpecList g.forbidden (channelMembers g chanId)) st' g' := by
  refine ⟨(mutePass sid (channelMembers g chanId) g st).st,
          (mutePass sid (channelMembers g chanId) g st).guild, ?_⟩
  simp [enforceTick, hs, hf, mutePass_attempted]

/-- Witness for the amended C5 at the concrete two-member channel. -/
theorem enforce_tick_attempted_witness :
    ∃ st' g', enforceTick 1 10 none stC guildC
      = TickResult.next 10 (attemptedSpecList guildC.forbidden (channelMembers guildC 10)) st' g' :=
  enforce_tick_attempted 1 10 stC guildC sessC (by decide) (by decide)

/-- C6: one iteration of the enforcement loop exits exactly when the
community no longer has an active session (the `while` guard, re-checked
at every iteration), and terminates the task while the session is active
only for `asyncio.CancelledError` (explicit cancellation, which
`except Exception` does not catch); any exception raised inside the
iteration — `discord.Forbidden` or any other `Exception` — is absorbed
and the loop resumes after its sleep interval. -/
theorem enforce_tick_lifecycle (sid chanId : Nat) (fault : Option Exn)
    (st : BotState) (g : Guild) :
    (alookup st.active_sessions sid = none →
      enforceTick sid chanId fault st g = TickResult.exit) ∧
    (∀ sess, alookup st.active_sessions sid = some sess →
      (fault = some Exn.cancelled →
        enforceTick sid chanId fault st g = TickResult.cancelled) ∧
      (fault ≠ some Exn.cancelled →
        ∃ n a st' g', enforceTick sid chanId fault st g = TickResult.next n a st' g')) := by
  constructor
  · intro h; simp [enforceTick, h]
  · intro sess hs
    constructor
    · intro hc; subst hc; simp [enforceTick, hs]
    · intro hnc
      cases fault with
      | none =>
        by_cases hf : (alookup st.focus_mode_active sid).getD true = true
        · exact ⟨10, (mutePass sid (channelMembers g chanId) g st).attempted,
            (mutePass sid (channelMembers g chanId) g st).st,
            (mutePass sid (channelMembers g chanId) g st).guild,
            by simp [enforceTick, hs, hf]⟩
        · exact ⟨5, [], st, g, by simp [enforceTick, hs, hf]⟩
      | some e =>
        cases e with
        | cancelled => exact absurd rfl hnc
        | forbidden => exact ⟨10, [], st, g, by simp [enforceTick, hs]⟩
        | other => exact ⟨10, [], st, g, by simp [enforceTick, hs]⟩

/-- Witness for C6: with no session the tick exits; with a session,
cancellation ends the task while an unexpected exception leaves the loop
sleeping and continuing. -/
theorem enforce_tick_lifecycle_witness :
    enforceTick 1 10 none stNo guildOk = TickResult.exit ∧
    enforceTick 1 10 (some Exn.cancelled) stC guildOk = TickResult.cancelled ∧
    ∃ n a st' g', enforceTick 1 10 (some Exn.other) stC guildOk
      = TickResult.next n a st' g' := by
  refine ⟨(enforce_tick_lifecycle 1 10 none stNo guildOk).1 (by decide),
    ((enforce_tick_lifecycle 1 10 (some Exn.cancelled) stC guildOk).2 sessC (by decide)).1 rfl,
    ((enforce_tick_lifecycle 1 10 (some Exn.other) stC guildOk).2 sessC (by decide)).2 (by decide)⟩

/-- C4: a Pomodoro run with `cycles = N ≥ 1` that completes without
cancellation (no injected fault) produces exactly the message sequence
`focus 1/N, break, focus 2/N, break, .., focus N/N` followed by the
completion announcement with the final duration: N focus announcements,
N−1 break announcements, strictly alternating starting with focus and
with no break after the final focus, after which the session is stopped
(the registry entry is gone; the stop reason in the source is "Pomodoro
completed") and the duration announced. -/
theorem pomodoro_phase_counts (work brk cycles tcid : Nat) (s : Sim)
    (sess : ActiveSession)
    (hcy : 1 ≤ cycles)
    (hch : channelMessageable s.guild tcid = true)
    (hs : alookup s.bot.active_sessions s.guild.id = some sess) :
    ∃ d : Int,
      (run_pomodoro_cycles tcid work brk cycles none s).1
        = pomoScheduleMsgs work brk cycles cycles 1 ++ [Msg.completed d] ∧
      (run_pomodoro_cycles tcid work brk cycles none s).2.1 = RunExit.normal ∧
      ((run_pomodoro_cycles tcid work brk cycles none s).1).countP isFocusMsg = cycles ∧
      ((run_pomodoro_cycles tcid work brk cycles none s).1).countP isBreakMsg = cycles - 1 ∧
      focusThenAlternating (pomoScheduleMsgs work brk cycles cycles 1) = true ∧
      alookup ((run_pomodoro_cycles tcid work brk cycles none s).2.2).bot.active_sessions
        s.guild.id = none := by
  cases hgc : get_channel s.guild tcid with
  | none =>
    rw [channelMessageable, hgc] at hch
    cases hch
  | some tc =>
    have hm : isMessageable tc = true := by
      rw [channelMessageable, hgc] at hch
      exact hch
    have hmsg := pomoLoop_none_msgs work brk cycles cycles 1 0 s
    have hact := pomoLoop_active work brk cycles none cycles 1 0 s
    have hgid := pomoLoop_guild_id work brk cycles none cycles 1 0 s
    have hsess : alookup (pomoLoop work brk cycles none cycles 1 0 s).sim.bot.active_sessions
        (pomoLoop work brk cycles none cycles 1 0 s).sim.guild.id = some sess := by
      rw [hact, hgid]; exact hs
    obtain ⟨s', hstop, hact', hgid'⟩ :=
      stop_session_found "Pomodoro completed"
        (pomoLoop work brk cycles none cycles 1 0 s).sim sess hsess
    have hrun : run_pomodoro_cycles tcid work brk cycles none s
        = ((pomoLoop work brk cycles none cycles 1 0 s).msgs
            ++ [Msg.completed
                  ((pomoLoop work brk cycles none cycles 1 0 s).sim.clock - sess.started_at)],
           RunExit.normal, popPomoState s') := by
      simp [run_pomodoro_cycles, hgc, hm, hmsg.2, hstop]
    have hcnt := pomoScheduleMsgs_counts work brk cycles cycles 1 (by omega) hcy
    refine ⟨(pomoLoop work brk cycles none cycles 1 0 s).sim.clock - sess.started_at,
      ?_, ?_, ?_, ?_, hcnt.2.2, ?_⟩
    · rw [hrun]; simp [hmsg.1]
    · rw [hrun]
    · rw [hrun]
      simp [List.countP_append, hmsg.1, hcnt.1, isFocusMsg, List.countP_cons]
    · rw [hrun]
      simp [List.countP_append, hmsg.1, hcnt.2.1, isBreakMsg, List.countP_cons]
    · rw [hrun]
      show alookup (popPomoState s').bot.active_sessions s.guild.id = none
      have hpp : (popPomoState s').bot.active_sessions = s'.bot.active_sessions := rfl
      rw [hpp, hact', hact, hgid]
      exact alookup_aerase_self _ _

/-- Witness for C4: a concrete two-cycle run on an active session. -/
theorem pomodoro_phase_counts_witness :
    ∃ d : Int,
      (run_pomodoro_cycles 5 25 5 2 none simC).1
        = pomoScheduleMsgs 25 5 2 2 1 ++ [Msg.completed d] ∧
      (run_pomodoro_cycles 5 25 5 2 none simC).2.1 = RunExit.normal ∧
      ((run_pomodoro_cycles 5 25 5 2 none simC).1).countP isFocusMsg = 2 ∧
      ((run_pomodoro_cycles 5 25 5 2 none simC).1).countP isBreakMsg = 1 ∧
      focusThenAlternating (pomoScheduleMsgs 25 5 2 2 1) = true ∧
      alookup ((run_pomodoro_cycles 5 25 5 2 none simC).2.2).bot.active_sessions 1 = none :=
  pomodoro_phase_counts 25 5 2 5 simC sessC (by decide) (by decide) (by decide)

theorem stop_session_guild_id (reason : String) (s : Sim) :
    (stop_session reason s).2.guild.id = s.guild.id := by
  cases h : alookup s.bot.active_sessions s.guild.id with
  | none => rw [stop_session_absent reason s h]
  | some sess =>
    obtain ⟨s', hs', _, hgid⟩ := stop_session_found reason s sess h
    rw [hs']
    exact hgid

theorem popPomoState_lookup (x : Sim) :
    alookup (popPomoState x).bot.pomodoro_states x.guild.id = none := by
  simp [popPomoState, alookup_apop_self]

theorem run_pomodoro_final (tcid work brk cycles : Nat) (fault : Option (Nat × Exn))
    (s : Sim) (hch : channelMessageable s.guild tcid = true) :
    ∃ x : Sim, (run_pomodoro_cycles tcid work brk cycles fault s).2.2 = popPomoState x ∧
      x.guild.id = s.guild.id := by
  cases hgc : get_channel s.guild tcid with
  | none =>
    rw [channelMessageable, hgc] at hch
    cases hch
  | some tc =>
    have hm : isMessageable tc = true := by
      rw [channelMessageable, hgc] at hch
      exact hch
    have hgid := pomoLoop_guild_id work brk cycles fault cycles 1 0 s
    cases hexn : (pomoLoop work brk cycles fault cycles 1 0 s).exn with
    | none =>
      refine ⟨(stop_session "Pomodoro completed"
          (pomoLoop work brk cycles fault cycles 1 0 s).sim).2, ?_, ?_⟩
      · simp [run_pomodoro_cycles, hgc, hm, hexn]
      · rw [stop_session_guild_id]
        exact hgid
    | some e =>
      cases e with
      | cancelled =>
        refine ⟨(stop_session "Pomodoro stopped"
            (pomoLoop work brk cycles fault cycles 1 0 s).sim).2, ?_, ?_⟩
        · simp [run_pomodoro_cycles, hgc, hm, hexn]
        · rw [stop_session_guild_id]
          exact hgid
      | forbidden =>
        refine ⟨(pomoLoop work brk cycles fault cycles 1 0 s).sim, ?_, hgid⟩
        simp [run_pomodoro_cycles, hgc, hm, hexn]
      | other =>
        refine ⟨(pomoLoop work brk cycles fault cycles 1 0 s).sim, ?_, hgid⟩
        simp [run_pomodoro_cycles, hgc, hm, hexn]

/-- Counterexample to C8 as stated.  `simP` holds a Pomodoro State entry
for community 1, but the announcement channel id 99 does not resolve in
the guild, so `run_pomodoro_cycles` takes the early `return` of bot.py
lines 434-436, BEFORE the `try`/`finally` — a normal (non-cancelled,
non-erroring) exit path of the run after which the community's Pomodoro
State entry is still present, so a new run would still be rejected. -/
theorem run_pomodoro_leak_counterexample :
    run_pomodoro_cycles 99 25 5 2 none simP = ([], RunExit.normal, simP) ∧
    alookup simP.bot.pomodoro_states 1 = some pstC := by
  decide

/-- C8 (amended): on every exit path of a Pomodoro run that enters the
scheduler's `try` block — equivalently, whenever the announcement channel
resolves to a messageable channel — the community's Pomodoro State entry
is removed, whether the run completed normally, was cancelled at any
suspension point, or an error was raised inside the run; a subsequent
`pomodoro_start` is then not rejected as "already running".  (When the
channel does not resolve, the run returns before the `try`/`finally` and
the entry survives, as the counterexample shows.) -/
theorem pomodoro_state_removed (tcid work brk cycles : Nat)
    (fault : Option (Nat × Exn)) (s : Sim)
    (hch : channelMessageable s.guild tcid = true) :
    alookup ((run_pomodoro_cycles tcid work brk cycles fault s).2.2).bot.pomodoro_states
        s.guild.id = none ∧
    (pomodoro_start tcid work brk cycles
        ((run_pomodoro_cycles tcid work brk cycles fault s).2.2)).1
      ≠ PomoStartResult.alreadyRunning := by
  obtain ⟨x, hx, hxid⟩ := run_pomodoro_final tcid work brk cycles fault s hch
  have hlook : alookup ((run_pomodoro_cycles tcid work brk cycles fault s).2.2).bot.pomodoro_states
      s.guild.id = none := by
    rw [hx, ← hxid]
    exact popPomoState_lookup x
  refine ⟨hlook, ?_⟩
  have hgid2 : ((run_pomodoro_cycles tcid work brk cycles fault s).2.2).guild.id = s.guild.id := by
    rw [hx]
    exact hxid
  rw [pomodoro_start]
  rw [hgid2, hlook]
  simp only [Option.isSome_none, Bool.false_eq_true, if_false, reduceIte]
  split <;> simp

/-- Witness for the amended C8: a run with a resolvable announcement
channel that is cancelled at its second suspension point still ends with
community 1's Pomodoro State entry removed, and a new start is not
rejected as already running. -/
theorem pomodoro_state_removed_witness :
    alookup ((run_pomodoro_cycles 5 25 5 2 (some (1, Exn.cancelled)) simP).2.2).bot.pomodoro_states
        1 = none ∧
    (pomodoro_start 5 25 5 2
        ((run_pomodoro_cycles 5 25 5 2 (some (1, Exn.cancelled)) simP).2.2)).1
      ≠ PomoStartResult.alreadyRunning :=
  pomodoro_state_removed 5 25 5 2 (some (1, Exn.cancelled)) simP (by decide)
